import Mathlib

/-!
Shallow embedding of the `automate` desktop-automation library.

The repository ships two parallel realizations of one design:
* `src/automate/...` (the `winterop` variant) and
* `src/src/automate/...` (the `win_api`/`pywin32` variant).

Pure logic (geometry, condition matching, tree search, the tree walker,
the focus protocol's control flow) is translated directly from the Python
source.  OS calls (user32 / UIAutomation) are external collaborators: their
results are modelled as fields of explicit state records, and the calls a
routine issues are recorded as an explicit event trace.
-/

/- ## Geometry: `automate/common.py` -/

/-- A screen point, from class Point in automate/common.py. -/
structure Point where
  x : Int
  y : Int
  deriving DecidableEq, Repr

/-- A rectangle snapshot, from class Rect in automate/common.py:
left/top/right/bottom as supplied by the native RECT. -/
structure Rect where
  left : Int
  top : Int
  right : Int
  bottom : Int
  deriving DecidableEq, Repr

/-- Rect.width: right - left. -/
def Rect.width (r : Rect) : Int :=
  r.right - r.left

/-- Rect.height: bottom - top. -/
def Rect.height (r : Rect) : Int :=
  r.bottom - r.top

/-- Rect.center.  The source computes x as left + int(float(width) / 2.0):
halving through a double and truncating toward zero with int(), which for
any width of magnitude below 2^53 is exactly truncating division by two,
embedded here as Int.tdiv (truncation toward zero, as Python int()). -/
def Rect.center (r : Rect) : Point :=
  { x := r.left + Int.tdiv r.width 2, y := r.top + Int.tdiv r.height 2 }

/-- Rect.has_area: both extents nonzero (sign is not checked). -/
def Rect.has_area (r : Rect) : Bool :=
  (r.right - r.left != 0) && (r.bottom - r.top != 0)

/- ## The hwnd backend's condition type: `impl/win32.py` -/

/-- Python truthiness of an optional int field (None and 0 are falsy). -/
def optIntTruthy : Option Int → Bool
  | some n => n != 0
  | none => false

/-- Python truthiness of an optional string field (None and "" are falsy). -/
def optStrTruthy : Option String → Bool
  | some s => s != ""
  | none => false

/-- Python str.lower, on the ASCII data the matcher compares. -/
def pyLower (s : String) : String :=
  s.map Char.toLower

/-- The title refinement of a win32 Condition: either a plain string
(matched case-insensitively) or a compiled regular expression, abstracted
as its match predicate on the element's title (re.match(p, t) is not None).
A compiled pattern object is always truthy. -/
inductive PyTitle where
  | str (s : String)
  | pattern (test : String → Bool)

/-- Condition for the window-handle backend (NamedTuple in
automate/impl/win32.py, plain class in src/automate/impl/win32.py):
four optional refinements, each absent when None (or falsy). -/
structure Condition where
  pid : Option Int
  control_id : Option Int
  class_name : Option String
  title : Option PyTitle

/-- Condition() with every refinement absent. -/
def Condition.empty : Condition :=
  { pid := none, control_id := none, class_name := none, title := none }

/-- The attribute surface of a win32 Element that conditions and the tree
walker consult.  rectRead models the GetWindowRect read: some r when the
OS call succeeds, none when it raises. -/
structure ElementAttrs where
  pid : Int
  control_id : Int
  class_name : String
  title : String
  rectRead : Option Rect

/-- Element.satisfies from automate/impl/win32.py (the same body as
Condition.matches in src/automate/impl/win32.py): result starts False and
each supplied (truthy) refinement OVERWRITES it with its own test, so the
last supplied refinement decides the outcome. -/
def Element.satisfies (e : ElementAttrs) (c : Condition) : Bool :=
  let result := false
  let result := if optIntTruthy c.pid then c.pid.getD 0 == e.pid else result
  let result :=
    if optIntTruthy c.control_id then c.control_id.getD 0 == e.control_id else result
  let result :=
    if optStrTruthy c.class_name then c.class_name.getD "" == e.class_name else result
  let result :=
    match c.title with
    | some (PyTitle.str t) =>
      if t != "" then pyLower t == pyLower e.title else result
    | some (PyTitle.pattern m) => m e.title
    | none => result
  result

/-- Modelled from the spec: conjunctive matching as section 4.1 describes it
("logical AND across supplied refinements ... must require both"), for
comparison against the source's Element.satisfies. -/
def satisfiesSpecAnd (e : ElementAttrs) (c : Condition) : Bool :=
  (if optIntTruthy c.pid then c.pid.getD 0 == e.pid else true) &&
  (if optIntTruthy c.control_id then c.control_id.getD 0 == e.control_id else true) &&
  (if optStrTruthy c.class_name then c.class_name.getD "" == e.class_name else true) &&
  (match c.title with
   | some (PyTitle.str t) =>
     if t != "" then pyLower t == pyLower e.title else true
   | some (PyTitle.pattern m) => m e.title
   | none => true)

/-- The runtime class of a condition value in src/automate/impl/win32.py:
either a plain Condition or the TrueCondition subclass whose matches
override returns True unconditionally. -/
inductive RuntimeCondition where
  | plain (c : Condition)
  | trueCondition

/-- Virtual dispatch of Condition.matches / TrueCondition.matches (matches
is a reserved word in Lean, hence condMatches).  The plain body is
identical to Element.satisfies above (the source's additional
"if not element: return False" guard cannot fire in this typed embedding,
where an element is always present). -/
def RuntimeCondition.condMatches (c : RuntimeCondition) (e : ElementAttrs) : Bool :=
  match c with
  | RuntimeCondition.plain c0 => Element.satisfies e c0
  | RuntimeCondition.trueCondition => true

/- ## The hwnd backend's element tree and search: `impl/win32.py` -/

/-- The window-handle tree as the search routines observe it: each node
carries the attribute surface plus the snapshot its children() call
returns (one level of direct children, in enumeration order). -/
inductive WinTree where
  | node (attrs : ElementAttrs) (children : List WinTree)

/-- The attribute surface of a tree node. -/
def WinTree.attrs : WinTree → ElementAttrs
  | WinTree.node a _ => a

/-- Element.children(): the direct-children snapshot. -/
def WinTree.children : WinTree → List WinTree
  | WinTree.node _ cs => cs

/-- The child loop of Element.find_first: for each child, return it when
the condition matches, otherwise search its descendants; move to the next
sibling only when that subtree is exhausted. -/
def findFirstList (c : RuntimeCondition) : List WinTree → Option WinTree
  | [] => none
  | WinTree.node a cs :: ts =>
    if c.condMatches a then some (WinTree.node a cs)
    else
      match findFirstList c cs with
      | some found => some found
      | none => findFirstList c ts

/-- Element.find_first(condition): depth-first pre-order over strict
descendants (the receiver itself is not tested). -/
def WinTree.find_first (t : WinTree) (c : RuntimeCondition) : Option WinTree :=
  findFirstList c t.children

/-- The child loop of Element.ifind_all / find_all: yield each matching
child, then everything its subtree yields, then the next sibling. -/
def findAllList (c : RuntimeCondition) : List WinTree → List WinTree
  | [] => []
  | WinTree.node a cs :: ts =>
    (if c.condMatches a then [WinTree.node a cs] else []) ++
      findAllList c cs ++ findAllList c ts

/-- Element.find_all(condition) = list(ifind_all(condition)): exhaustive
depth-first pre-order over strict descendants. -/
def WinTree.find_all (t : WinTree) (c : RuntimeCondition) : List WinTree :=
  findAllList c t.children

/- ## The accessibility backend's conditions: `automate/impl/uia.py` -/

/-- The UIA property ids the builders use (Property enum; the numeric ids
come from the UIAutomationCore type library and are opaque here). -/
inductive UIAProperty where
  | ProcessId
  | ControlType
  | ClassName
  | Title
  deriving DecidableEq, Repr

/-- A value handed to CreatePropertyConditionEx: int or string. -/
inductive PropVal where
  | int (i : Int)
  | str (s : String)
  deriving DecidableEq, Repr

/-- A native IUIAutomationCondition as the engine hands them out:
a property condition (CreatePropertyConditionEx, case-insensitive),
a conjunction (CreateAndConditionFromArray) or the true condition
(CreateTrueCondition). -/
inductive NativeCond where
  | prop (propertyId : UIAProperty) (value : PropVal)
  | andArray (conds : List NativeCond)
  | trueCond

/-- The UIA error type raised when an empty condition is materialized. -/
inductive UIAError where
  | conditionNotCreated
  deriving DecidableEq, Repr

/-- Condition from automate/impl/uia.py: an optional pre-built native
condition (the TRUE_CONDITION sentinel carries one) plus the tuple of
native sub-conditions the refinement builders accumulated. -/
structure UIACondition where
  native0 : Option NativeCond
  conditions : List NativeCond

/-- Condition(): no native sentinel, no refinements. -/
def UIACondition.empty : UIACondition :=
  { native0 := none, conditions := [] }

/-- TRUE_CONDITION: the match-everything sentinel, built once with
_native = CreateTrueCondition(). -/
def TRUE_CONDITION : UIACondition :=
  { native0 := some NativeCond.trueCond, conditions := [] }

/-- Condition.pid(pid): a fresh Condition whose tuple is extended with a
ProcessId property condition (the _native sentinel is not carried over). -/
def UIACondition.pid (c : UIACondition) (pid : Int) : UIACondition :=
  { native0 := none,
    conditions := c.conditions ++ [NativeCond.prop UIAProperty.ProcessId (PropVal.int pid)] }

/-- Condition.control_type(control_type). -/
def UIACondition.control_type (c : UIACondition) (ct : Int) : UIACondition :=
  { native0 := none,
    conditions := c.conditions ++ [NativeCond.prop UIAProperty.ControlType (PropVal.int ct)] }

/-- Condition.class_name(class_name). -/
def UIACondition.class_name (c : UIACondition) (s : String) : UIACondition :=
  { native0 := none,
    conditions := c.conditions ++ [NativeCond.prop UIAProperty.ClassName (PropVal.str s)] }

/-- Condition.title(title). -/
def UIACondition.title (c : UIACondition) (s : String) : UIACondition :=
  { native0 := none,
    conditions := c.conditions ++ [NativeCond.prop UIAProperty.Title (PropVal.str s)] }

/-- Condition.native from automate/impl/uia.py: return the pre-built
native condition when present; otherwise fail with
UIAConditionNotCreatedError on zero accumulated refinements, conjoin on
more than one, and return the single condition otherwise. -/
def UIACondition.native (c : UIACondition) : Except UIAError NativeCond :=
  match c.native0 with
  | some n => Except.ok n
  | none =>
    match c.conditions with
    | [] => Except.error UIAError.conditionNotCreated
    | [single] => Except.ok single
    | conds => Except.ok (NativeCond.andArray conds)

/- ## Native enumeration callbacks: `automate/winterop/user32.py` -/

/-- An exception object raised by a Python callback (opaque). -/
structure PyExn where
  message : String
  deriving DecidableEq, Repr

/-- The _callback adapter that EnumWindows wraps around a caller-supplied
callback: try: return 1 if callback(hwnd) else 0; except Exception:
return 1.  The caller callback is modelled as a function that either
returns a Bool or raises. -/
def enumWindowsAdapter (callback : Int → Except PyExn Bool) (hwnd : Int) : Int :=
  match callback hwnd with
  | Except.ok b => if b then 1 else 0
  | Except.error _ => 1

/-- The _callback adapter inside EnumChildWindows, textually identical to
the one inside EnumWindows. -/
def enumChildWindowsAdapter (callback : Int → Except PyExn Bool) (hwnd : Int) : Int :=
  match callback hwnd with
  | Except.ok b => if b then 1 else 0
  | Except.error _ => 1

/-- The BOOL an EnumWindowsProc returns to stop enumeration (FALSE); the
source's own stop-requesting callback, Window.top_window's, returns
False, i.e. 0 through the adapter. -/
def stopEnumeration : Int := 0

/-- The BOOL an EnumWindowsProc returns to continue enumeration (TRUE). -/
def continueEnumeration : Int := 1

/- ## Window focus protocol: `impl/win32.py`, Window class -/

/-- ShowWindow commands (win32_constants binding module; standard
winuser.h values). -/
def SW_MAXIMIZE : Int := 3

/-- ShowWindow SW_SHOW. -/
def SW_SHOW : Int := 5

/-- ShowWindow SW_RESTORE. -/
def SW_RESTORE : Int := 9

/-- SetWindowPos insert-after handle HWND_TOPMOST. -/
def HWND_TOPMOST : Int := -1

/-- SetWindowPos insert-after handle HWND_NOTOPMOST. -/
def HWND_NOTOPMOST : Int := -2

/-- SetWindowPos flag SWP_NOSIZE. -/
def SWP_NOSIZE : Int := 1

/-- SetWindowPos flag SWP_NOMOVE. -/
def SWP_NOMOVE : Int := 2

/-- A mutating (or sleeping) OS call a focus routine issues, recorded in
program order.  Read-only probes (GetForegroundWindow, EnumWindows,
GetWindowThreadProcessId, IsIconic, IsZoomed, session lookups) are not
mutations and are not recorded. -/
inductive OsCall where
  | showWindow (hwnd : Int) (cmd : Int)
  | setWindowPos (hwnd : Int) (insertAfter : Int) (flags : Int)
  | attachThreadInput (idAttach : Int) (idAttachTo : Int) (attach : Bool)
  | setForegroundWindow (hwnd : Int)
  | sleepCall
  deriving DecidableEq, Repr

/-- Whether an event mutates OS state (sleeping does not). -/
def OsCall.isMutation : OsCall → Bool
  | OsCall.sleepCall => false
  | _ => true

/-- The OS facts a focus attempt consults, fixed for the duration of the
attempt: the outcome of the is_focused() probe, the foreground thread id,
session affinity, window state, and which fallible calls raise.
normalizeRaises models an exception thrown inside the try body before
SetForegroundWindow is reached (Python's try/finally protects arbitrary
statements); setForegroundRaises models SetForegroundWindow returning 0,
which the user32 wrapper converts to a raised WinError. -/
structure FocusEnv where
  isFocused : Bool
  fgTid : Int
  inCurrentSession : Bool
  attachRaises : Bool
  isMinimized : Bool
  isMaximized : Bool
  normalizeRaises : Bool
  setForegroundRaises : Bool

/-- The body of Window.focus in automate/impl/win32.py (= the post-guard
body of Window.set_focus in src/automate/impl/win32.py): show, toggle the
z-order to topmost and back with SWP_NOMOVE|SWP_NOSIZE, sleep.  The
is_focused() early-return guard present in set_focus is commented out in
Window.focus, so this runs unconditionally there. -/
def Window.focus (hwnd : Int) : List OsCall :=
  [OsCall.showWindow hwnd SW_SHOW,
   OsCall.setWindowPos hwnd HWND_TOPMOST (Int.lor SWP_NOMOVE SWP_NOSIZE),
   OsCall.setWindowPos hwnd HWND_NOTOPMOST (Int.lor SWP_NOMOVE SWP_NOSIZE),
   OsCall.sleepCall]

/-- Window.set_focus from src/automate/impl/win32.py: identical to
Window.focus except that it returns immediately (issuing no call) when
is_focused() already holds. -/
def Window.set_focus (env : FocusEnv) (hwnd : Int) : List OsCall :=
  if env.isFocused then []
  else Window.focus hwnd

/-- Window._focus (automate variant) / Window.set_focus2 (src variant):
the attach-based aggressive protocol.  Returns the issued calls and
whether an exception escapes.  Control flow from the source: early return
when focused; fall back to the gentle method when the window is in
another session or AttachThreadInput raises; otherwise attach, then in a
try block normalize (restore when minimized, re-maximize when maximized,
else show) and request foreground, and in the finally block always
detach.  ShowWindow's wrapper never raises, but any statement in the try
body may; either modelled raise reaches the caller after the finally. -/
def Window.focusAggressive (env : FocusEnv) (hwnd tid : Int) : List OsCall × Bool :=
  if env.isFocused then
    ([], false)
  else if !env.inCurrentSession then
    (Window.focus hwnd, false)
  else if env.attachRaises then
    (Window.focus hwnd, false)
  else
    let attachOn := OsCall.attachThreadInput tid env.fgTid true
    let attachOff := OsCall.attachThreadInput tid env.fgTid false
    if env.normalizeRaises then
      ([attachOn, attachOff], true)
    else
      let normalize :=
        if env.isMinimized then [OsCall.showWindow hwnd SW_RESTORE]
        else if env.isMaximized then [OsCall.showWindow hwnd SW_MAXIMIZE]
        else [OsCall.showWindow hwnd SW_SHOW]
      if env.setForegroundRaises then
        ([attachOn] ++ normalize ++ [attachOff], true)
      else
        ([attachOn] ++ normalize ++
          [OsCall.setForegroundWindow hwnd, attachOff], false)

/-- Whether a thread-input attachment is still active after a trace: the
last attach-thread-input event's flag (False when there is none). -/
def attachLeftActive (trace : List OsCall) : Bool :=
  trace.foldl
    (fun acc e =>
      match e with
      | OsCall.attachThreadInput _ _ b => b
      | _ => acc)
    false

/- ## TreeWalker: Element.tree in `impl/win32.py` -/

/-- The per-class-name occurrence counters dict, as an association list in
insertion order. -/
def Counters : Type := List (String × Nat)

/-- counters.get(key, 0). -/
def countersGet (cs : Counters) (k : String) : Nat :=
  match List.find? (fun p => p.1 == k) cs with
  | some p => p.2
  | none => 0

/-- counters[key] = v (overwrite in place, insert at the end when new). -/
def countersSet (cs : Counters) (k : String) (v : Nat) : Counters :=
  match cs with
  | [] => [(k, v)]
  | p :: rest =>
    if p.1 == k then (k, v) :: rest
    else p :: countersSet rest k v

/-- One printed line of the walk: depth, class name, per-type ordinal,
title, and the rectangle when its read succeeded (none stands for the
"(COMError)" line the except branch prints). -/
structure VisitRecord where
  depth : Nat
  ctrl : String
  idx : Nat
  title : String
  rect : Option Rect
  deriving DecidableEq, Repr

/-- The guard raising ValueError: max_depth is not None and max_depth < 0. -/
def maxDepthInvalid : Option Int → Bool
  | some m => m < 0
  | none => false

/-- The recursion guard: max_depth is None or depth < max_depth. -/
def shouldRecurse (md : Option Int) (depth : Nat) : Bool :=
  match md with
  | none => true
  | some m => (depth : Int) < m

/-- The tree() walk over a worklist of nodes sharing one depth: each node
re-checks the ValueError guard, bumps its class-name counter, takes its
ordinal, then either records the failed rectangle read and returns without
recursing, or records the node and (when depth < max_depth) walks its
children at depth+1 before the remaining siblings.  Counters thread
through the whole walk (the Python dict is shared by reference).  Raising
is modelled as Except.error. -/
def treeWalkList (md : Option Int) :
    Nat → Counters → List WinTree → Except PyExn (List VisitRecord × Counters)
  | _, counters, [] => Except.ok ([], counters)
  | depth, counters, WinTree.node a cs :: ts =>
    if maxDepthInvalid md then
      Except.error { message := "max_depth must be a non-negative integer or None" }
    else
      let ctrl := a.class_name
      let counters1 := countersSet counters ctrl (countersGet counters ctrl + 1)
      let idx := countersGet counters1 ctrl - 1
      match a.rectRead with
      | none =>
        match treeWalkList md depth counters1 ts with
        | Except.ok (recs, cts) =>
          Except.ok ({ depth := depth, ctrl := ctrl, idx := idx,
                       title := a.title, rect := none } :: recs, cts)
        | Except.error e => Except.error e
      | some r =>
        let selfRec : VisitRecord :=
          { depth := depth, ctrl := ctrl, idx := idx, title := a.title, rect := some r }
        if shouldRecurse md depth then
          match treeWalkList md (depth + 1) counters1 cs with
          | Except.ok (crecs, counters2) =>
            match treeWalkList md depth counters2 ts with
            | Except.ok (recs, cts) => Except.ok (selfRec :: (crecs ++ recs), cts)
            | Except.error e => Except.error e
          | Except.error e => Except.error e
        else
          match treeWalkList md depth counters1 ts with
          | Except.ok (recs, cts) => Except.ok (selfRec :: recs, cts)
          | Except.error e => Except.error e

/-- Element.tree(max_depth): the walk entered at the element itself, with
fresh counters and depth 0. -/
def WinTree.tree (t : WinTree) (md : Option Int) :
    Except PyExn (List VisitRecord × Counters) :=
  treeWalkList md 0 [] [t]

/- ## Concrete inputs used by counterexamples and witnesses -/

/-- An element with pid 2 and class name "X". -/
def c1Element : ElementAttrs :=
  { pid := 2, control_id := 0, class_name := "X", title := "", rectRead := none }

/-- Condition(pid=1, class_name="X"): two refinements, the first of which
(pid) does not hold of c1Element while the second (class_name) does. -/
def c1Condition : Condition :=
  { pid := some 1, control_id := none, class_name := some "X", title := none }

/-- An OS state in which the aggressive path attaches: not focused, same
session, nothing raises. -/
def c2Env : FocusEnv :=
  { isFocused := false, fgTid := 7, inCurrentSession := true, attachRaises := false,
    isMinimized := false, isMaximized := false, normalizeRaises := false,
    setForegroundRaises := false }

/-- An OS state in which the target window is already focused. -/
def c8Env : FocusEnv :=
  { isFocused := true, fgTid := 7, inCurrentSession := true, attachRaises := false,
    isMinimized := false, isMaximized := false, normalizeRaises := false,
    setForegroundRaises := false }

/-- A node whose GetWindowRect read raises. -/
def c7FailAttrs : ElementAttrs :=
  { pid := 0, control_id := 0, class_name := "Pane", title := "stale", rectRead := none }

/-- A node whose GetWindowRect read succeeds. -/
def c7OkAttrs : ElementAttrs :=
  { pid := 0, control_id := 0, class_name := "Button", title := "ok",
    rectRead := some (Rect.mk 0 0 1 1) }

/- ## Helper lemmas -/

/-- The empty condition never matches: no refinement is truthy, so the
initial False is returned unchanged. -/
theorem satisfies_empty (e : ElementAttrs) :
    Element.satisfies e Condition.empty = false := rfl

/-- An exhaustive search with the empty condition collects nothing. -/
theorem findAllList_empty_cond :
    ∀ l : List WinTree, findAllList (RuntimeCondition.plain Condition.empty) l = []
  | [] => by simp [findAllList]
  | WinTree.node a cs :: ts => by
    have ih1 := findAllList_empty_cond cs
    have ih2 := findAllList_empty_cond ts
    simp [findAllList, RuntimeCondition.condMatches, satisfies_empty, ih1, ih2]

/-- The short-circuiting search returns exactly the head of the exhaustive
search: both walk the same pre-order. -/
theorem findFirstList_eq_head (c : RuntimeCondition) :
    ∀ l : List WinTree, findFirstList c l = (findAllList c l).head?
  | [] => by simp [findFirstList, findAllList]
  | WinTree.node a cs :: ts => by
    have ih1 := findFirstList_eq_head c cs
    have ih2 := findFirstList_eq_head c ts
    cases h : c.condMatches a with
    | true => simp [findFirstList, findAllList, h]
    | false =>
      simp only [findFirstList, findAllList, h, Bool.false_eq_true, if_false,
        List.nil_append, List.head?_append, ih1, ih2]
      cases (findAllList c cs).head? <;> simp [Option.or]

/-- Materializing any condition whose tuple ends with a freshly appended
refinement succeeds. -/
theorem native_append_ok (l : List NativeCond) (x : NativeCond) :
    ∃ n, UIACondition.native { native0 := none, conditions := l ++ [x] } = Except.ok n := by
  cases l with
  | nil => exact ⟨x, rfl⟩
  | cons y ys =>
    cases ys with
    | nil => exact ⟨NativeCond.andArray [y, x], rfl⟩
    | cons z zs => exact ⟨NativeCond.andArray (y :: z :: (zs ++ [x])), rfl⟩

/-- Once the max_depth guard passes, the walk never raises. -/
theorem treeWalkList_total (md : Option Int) (h : maxDepthInvalid md = false) :
    ∀ (depth : Nat) (counters : Counters) (l : List WinTree),
      ∃ out, treeWalkList md depth counters l = Except.ok out
  | _, counters, [] => ⟨([], counters), by simp [treeWalkList]⟩
  | depth, counters, WinTree.node a cs :: ts => by
    cases hr : a.rectRead with
    | none =>
      obtain ⟨⟨recs, cts⟩, ht⟩ :=
        treeWalkList_total md h depth
          (countersSet counters a.class_name (countersGet counters a.class_name + 1)) ts
      exact ⟨_, by simp [treeWalkList, h, hr, ht]; rfl⟩
    | some r =>
      cases hs : shouldRecurse md depth with
      | true =>
        obtain ⟨⟨crecs, counters2⟩, hcs⟩ :=
          treeWalkList_total md h (depth + 1)
            (countersSet counters a.class_name (countersGet counters a.class_name + 1)) cs
        obtain ⟨⟨recs, cts⟩, ht⟩ := treeWalkList_total md h depth counters2 ts
        exact ⟨_, by simp [treeWalkList, h, hr, hs, hcs, ht]; rfl⟩
      | false =>
        obtain ⟨⟨recs, cts⟩, ht⟩ :=
          treeWalkList_total md h depth
            (countersSet counters a.class_name (countersGet counters a.class_name + 1)) ts
        exact ⟨_, by simp [treeWalkList, h, hr, hs, ht]; rfl⟩

/- ## Claim theorems -/

/-- Claim C1 (code bug): condition matching is supposed to be conjunctive
across supplied refinements, but Element.satisfies lets the last supplied
refinement overwrite the earlier results.  At Condition(pid=1,
class_name="X") against an element with pid=2 and class name "X", the
source returns True although the pid refinement fails, while the
conjunctive semantics the spec states returns False. -/
theorem C1_last_refinement_wins :
    Element.satisfies c1Element c1Condition = true ∧
    satisfiesSpecAnd c1Element c1Condition = false := by
  exact ⟨rfl, rfl⟩

/-- Claim C9 fails as stated: has_area() only requires both extents to be
nonzero, so a rectangle with right < left (negative width) has area, yet
its center x = left + tdiv width 2 lies strictly outside the (empty)
closed interval from left to right.  Witnessed by Rect(0, 0, -3, 1). -/
theorem C9_counterexample :
    (Rect.mk 0 0 (-3) 1).has_area = true ∧
    ¬ ((Rect.mk 0 0 (-3) 1).left ≤ (Rect.mk 0 0 (-3) 1).center.x ∧
       (Rect.mk 0 0 (-3) 1).center.x ≤ (Rect.mk 0 0 (-3) 1).right ∧
       (Rect.mk 0 0 (-3) 1).top ≤ (Rect.mk 0 0 (-3) 1).center.y ∧
       (Rect.mk 0 0 (-3) 1).center.y ≤ (Rect.mk 0 0 (-3) 1).bottom) := by
  decide

/-- Claim C9 (amended): for every rectangle with left ≤ right and
top ≤ bottom (the ordering the spec says callers assume) and has_area()
true, the center lies within the closed box. -/
theorem C9_center_in_box (r : Rect) (hlr : r.left ≤ r.right) (htb : r.top ≤ r.bottom)
    (_ha : r.has_area = true) :
    r.left ≤ r.center.x ∧ r.center.x ≤ r.right ∧
    r.top ≤ r.center.y ∧ r.center.y ≤ r.bottom := by
  have hx : r.center.x = r.left + (r.right - r.left).tdiv 2 := rfl
  have hy : r.center.y = r.top + (r.bottom - r.top).tdiv 2 := rfl
  have hw2 : (r.right - r.left).tdiv 2 = (r.right - r.left) / 2 :=
    Int.tdiv_eq_ediv (by omega) (by norm_num)
  have hh2 : (r.bottom - r.top).tdiv 2 = (r.bottom - r.top) / 2 :=
    Int.tdiv_eq_ediv (by omega) (by norm_num)
  rw [hx, hy, hw2, hh2]
  omega

/-- Witness for C9_center_in_box at Rect(0, 0, 4, 2). -/
theorem C9_center_in_box_witness :
    (Rect.mk 0 0 4 2).left ≤ (Rect.mk 0 0 4 2).center.x ∧
    (Rect.mk 0 0 4 2).center.x ≤ (Rect.mk 0 0 4 2).right ∧
    (Rect.mk 0 0 4 2).top ≤ (Rect.mk 0 0 4 2).center.y ∧
    (Rect.mk 0 0 4 2).center.y ≤ (Rect.mk 0 0 4 2).bottom :=
  C9_center_in_box (Rect.mk 0 0 4 2) (by decide) (by decide) (by decide)

/-- Claim C10: a Condition built with no refinements matches no element in
the window-handle backend — satisfies/matches is False everywhere, so
find_first returns None and find_all returns the empty list (no error,
and not match-everything). -/
theorem C10_empty_condition_matches_nothing (e : ElementAttrs) (t : WinTree) :
    Element.satisfies e Condition.empty = false ∧
    RuntimeCondition.condMatches (RuntimeCondition.plain Condition.empty) e = false ∧
    WinTree.find_first t (RuntimeCondition.plain Condition.empty) = none ∧
    WinTree.find_all t (RuntimeCondition.plain Condition.empty) = [] := by
  refine ⟨rfl, rfl, ?_, ?_⟩
  · rw [WinTree.find_first, findFirstList_eq_head, findAllList_empty_cond]
    rfl
  · rw [WinTree.find_all]
    exact findAllList_empty_cond _

/-- Claim C4: find_all traversal is deterministic depth-first pre-order
over strict descendants: for a root with children c1 (with single child
g1) and c2, the match-everything search yields exactly [c1, g1, c2]. -/
theorem C4_find_all_preorder (ar a1 a2 ag : ElementAttrs) :
    WinTree.find_all
      (WinTree.node ar [WinTree.node a1 [WinTree.node ag []], WinTree.node a2 []])
      RuntimeCondition.trueCondition =
    [WinTree.node a1 [WinTree.node ag []], WinTree.node ag [], WinTree.node a2 []] := by
  simp [WinTree.find_all, WinTree.children, findAllList, RuntimeCondition.condMatches]

/-- Claim C5: find_first always returns the head of find_all (same
pre-order, short-circuited), and in particular returns None exactly when
find_all is empty; on any non-empty tree with the match-everything
condition both therefore agree on the first element. -/
theorem C5_find_first_is_head_of_find_all (t : WinTree) (c : RuntimeCondition) :
    WinTree.find_first t c = (WinTree.find_all t c).head? ∧
    (WinTree.find_first t c = none ↔ WinTree.find_all t c = []) := by
  have h : WinTree.find_first t c = (WinTree.find_all t c).head? :=
    findFirstList_eq_head c t.children
  refine ⟨h, ?_⟩
  rw [h]
  exact List.head?_eq_none_iff

/-- Claim C6: materializing a condition built with zero refinements (and
not the TRUE_CONDITION sentinel) fails with ConditionNotCreatedError,
the sentinel materializes to the native true condition, and a condition
carrying at least one refinement added by any of the four builders
materializes without error. -/
theorem C6_empty_condition_not_created :
    UIACondition.native UIACondition.empty = Except.error UIAError.conditionNotCreated ∧
    UIACondition.native TRUE_CONDITION = Except.ok NativeCond.trueCond ∧
    (∀ (c : UIACondition) (v : Int), ∃ n, (c.pid v).native = Except.ok n) ∧
    (∀ (c : UIACondition) (v : Int), ∃ n, (c.control_type v).native = Except.ok n) ∧
    (∀ (c : UIACondition) (s : String), ∃ n, (c.class_name s).native = Except.ok n) ∧
    (∀ (c : UIACondition) (s : String), ∃ n, (c.title s).native = Except.ok n) := by
  refine ⟨rfl, rfl, ?_, ?_, ?_, ?_⟩ <;>
    exact fun c v => native_append_ok c.conditions _

/-- Claim C3 fails as stated: the adapter around an enumeration callback
does catch every exception at the boundary, but converts it to 1
(continue enumerating, the value TRUE), not to the stop value 0 that the
claim asserts. -/
theorem C3_counterexample :
    enumWindowsAdapter (fun _ => Except.error { message := "boom" }) 5 =
      continueEnumeration ∧
    enumWindowsAdapter (fun _ => Except.error { message := "boom" }) 5 ≠
      stopEnumeration := by
  refine ⟨rfl, ?_⟩
  decide

/-- Claim C3 (amended): for both native enumeration adapters, an exception
raised inside the caller-supplied callback is caught at the callback
boundary and converted to the continue-enumerating return value (1)
rather than propagating into platform code. -/
theorem C3_callback_exception_continues (cb : Int → Except PyExn Bool) (hwnd : Int)
    (e : PyExn) (h : cb hwnd = Except.error e) :
    enumWindowsAdapter cb hwnd = continueEnumeration ∧
    enumChildWindowsAdapter cb hwnd = continueEnumeration := by
  rw [enumWindowsAdapter, enumChildWindowsAdapter, h]
  exact ⟨rfl, rfl⟩

/-- Witness for C3_callback_exception_continues on an always-raising
callback at handle 3. -/
theorem C3_callback_exception_continues_witness :
    enumWindowsAdapter (fun _ => Except.error { message := "w" }) 3 =
      continueEnumeration ∧
    enumChildWindowsAdapter (fun _ => Except.error { message := "w" }) 3 =
      continueEnumeration :=
  C3_callback_exception_continues (fun _ => Except.error { message := "w" }) 3
    { message := "w" } rfl

/-- Claim C2: across every OS state, an aggressive focus attempt never
leaves the thread-input attachment active — whenever the attach call was
issued, the matching detach call is also issued before the attempt
returns, whether or not normalization or the set-foreground request
raises. -/
theorem C2_detach_always_runs (env : FocusEnv) (hwnd tid : Int) :
    attachLeftActive (Window.focusAggressive env hwnd tid).1 = false ∧
    (OsCall.attachThreadInput tid env.fgTid true ∈ (Window.focusAggressive env hwnd tid).1 →
      OsCall.attachThreadInput tid env.fgTid false ∈
        (Window.focusAggressive env hwnd tid).1) := by
  obtain ⟨f, fg, s, a, mn, mx, nr, sr⟩ := env
  cases f <;> cases s <;> cases a <;> cases mn <;> cases mx <;> cases nr <;> cases sr <;>
    simp [Window.focusAggressive, Window.focus, attachLeftActive]

/-- Witness for C2_detach_always_runs: in c2Env the attach call is made
and the detach call follows. -/
theorem C2_detach_always_runs_witness :
    OsCall.attachThreadInput 2 7 false ∈ (Window.focusAggressive c2Env 1 2).1 :=
  (C2_detach_always_runs c2Env 1 2).2 (by decide)

/-- Claim C8 fails as stated: the winterop variant's Window.focus has its
is_focused() early-return commented out, so invoking it on an
already-focused window (c8Env) still issues a show-window and two
set-window-pos mutations instead of zero. -/
theorem C8_counterexample :
    c8Env.isFocused = true ∧
    (Window.focus 1).filter OsCall.isMutation ≠ [] := by
  refine ⟨rfl, ?_⟩
  decide

/-- Claim C8 (amended): the guarded focus entry points — set_focus
(src variant gentle method) and the aggressive method (set_focus2/_focus)
— issue zero OS calls and return immediately without raising when
is_focused() already holds; only the winterop variant's Window.focus,
whose guard is commented out, mutates unconditionally. -/
theorem C8_focused_means_no_mutation (env : FocusEnv) (hwnd tid : Int)
    (h : env.isFocused = true) :
    Window.set_focus env hwnd = [] ∧
    (Window.focusAggressive env hwnd tid).1 = [] ∧
    (Window.focusAggressive env hwnd tid).2 = false := by
  rw [Window.set_focus, Window.focusAggressive, h]
  exact ⟨rfl, rfl, rfl⟩

/-- Witness for C8_focused_means_no_mutation at c8Env. -/
theorem C8_focused_means_no_mutation_witness :
    Window.set_focus c8Env 1 = [] ∧
    (Window.focusAggressive c8Env 1 2).1 = [] ∧
    (Window.focusAggressive c8Env 1 2).2 = false :=
  C8_focused_means_no_mutation c8Env 1 2 rfl

/-- Claim C7: during a tree() walk with a valid max_depth, a visited node
whose bounding-rectangle read fails is recorded with a failure line
(rect = none) and is treated as a leaf — the walk over it equals the walk
over the same node with its children removed, so nothing below it is
visited — while the remaining siblings still run and the whole walk
returns without raising. -/
theorem C7_rect_failure_is_leaf (md : Option Int) (h : maxDepthInvalid md = false)
    (a : ElementAttrs) (hr : a.rectRead = none)
    (cs ts : List WinTree) (depth : Nat) (counters : Counters) :
    treeWalkList md depth counters (WinTree.node a cs :: ts) =
      treeWalkList md depth counters (WinTree.node a [] :: ts) ∧
    ∃ rec0 rest cts,
      treeWalkList md depth counters (WinTree.node a cs :: ts) =
        Except.ok (rec0 :: rest, cts) ∧
      rec0.rect = none ∧ rec0.ctrl = a.class_name ∧
      rec0.title = a.title ∧ rec0.depth = depth := by
  obtain ⟨⟨recs, cts⟩, ht⟩ :=
    treeWalkList_total md h depth
      (countersSet counters a.class_name (countersGet counters a.class_name + 1)) ts
  constructor
  · simp [treeWalkList, h, hr, ht]
  · refine ⟨VisitRecord.mk depth a.class_name
        (countersGet (countersSet counters a.class_name
          (countersGet counters a.class_name + 1)) a.class_name - 1)
        a.title none, recs, cts, ?_, rfl, rfl, rfl, rfl⟩
    simp [treeWalkList, h, hr, ht]

/-- Witness for C7_rect_failure_is_leaf: a two-node tree whose root has a
failing rectangle read and one healthy child, walked unbounded. -/
theorem C7_rect_failure_is_leaf_witness :
    treeWalkList none 0 [] [WinTree.node c7FailAttrs [WinTree.node c7OkAttrs []]] =
      treeWalkList none 0 [] [WinTree.node c7FailAttrs []] ∧
    ∃ rec0 rest cts,
      treeWalkList none 0 [] [WinTree.node c7FailAttrs [WinTree.node c7OkAttrs []]] =
        Except.ok (rec0 :: rest, cts) ∧
      rec0.rect = none ∧ rec0.ctrl = c7FailAttrs.class_name ∧
      rec0.title = c7FailAttrs.title ∧ rec0.depth = 0 :=
  C7_rect_failure_is_leaf none rfl c7FailAttrs rfl [WinTree.node c7OkAttrs []] [] 0 []
